import Mathlib

/-!
Verification of the visual-regression comparison tool
(`test_visual_comparison.py`) of the cattaneo repository.

The development shallowly embeds the pure core of the tool:

* the Raster Differ (`VisualTester.compare_screenshots`): a per-pixel
  RGB comparison of two raster images producing a `DiffResult` record
  and a difference-visualization image;
* the Style/Geometry Extractor (`get_computed_styles`,
  `get_element_position`): JavaScript snippets which return `null` when
  `document.querySelector` finds no element;
* the control flow of the matrix-cell tests (`test_header_exists`,
  `test_header_fixed_position_desktop`, `test_page_screenshot_similarity`)
  including their `try`/`finally` page cleanup, modelled by explicit
  exception values (`TestOutcome`) and a per-handle acquire/release state
  (`CellPagesState`) tracking which acquisitions precede the `try` and
  which close calls can be skipped;
* the viewport catalogue and the viewport-gated parametrize filters.

Machine integers do not overflow here (Python ints are unbounded), so
pixel channels are `Nat` and the floating-point similarity percentage is
modelled exactly as a rational.  The one fallible operation in the pure
core, the unguarded division by `total_pixels`, makes the differ return
`Option` (`none` is Python's `ZeroDivisionError`).  PIL's LANCZOS
`resize` is an external library call; it is modelled as an abstract
`resample` parameter that the differ invokes exactly where the source
invokes `Image.resize`.
-/

/-- One RGB pixel, channel values 0–255 (`Nat`, since Python ints are
unbounded and PIL hands back triples of small non-negative ints). -/
structure Pixel where
  r : Nat
  g : Nat
  b : Nat
deriving DecidableEq, Repr

/-- A raster image: a width×height grid of RGB pixels.  The pixel grid is
total as a function; only coordinates `x < width`, `y < height` are ever
read by the embedded code. -/
structure RasterImage where
  width : Nat
  height : Nat
  px : Nat → Nat → Pixel

/-- `abs (r - t)` on Python ints, for channel values. -/
def natDist (a b : Nat) : Nat := ((a : Int) - (b : Int)).natAbs

/-- `sum(abs(r - t) for r, t in zip(ref_pixel, target_pixel))`: the sum of
absolute per-channel differences of two pixels (range 0–765). -/
def pixelDiff (p q : Pixel) : Nat :=
  natDist p.r q.r + natDist p.g q.g + natDist p.b q.b

/-- `sum(target_pixel) // 3`: the integer (floor) average of the three
channels, used to grey out non-different pixels. -/
def grayOf (p : Pixel) : Nat := (p.r + p.g + p.b) / 3

/-- The record returned by `compare_screenshots`.  `similarity_percentage`
is a Python float computed as `((total - different) / total) * 100`; the
arithmetic is modelled exactly over `ℚ`. -/
structure DiffResult where
  total_pixels : Nat
  different_pixels : Nat
  similarity_percentage : ℚ
  max_difference : Nat
  passed : Bool
deriving DecidableEq, Repr

/-- Inner loop `for x in range(ref_img.size[0])` of the differ: how many
pixels of row `y` have channel-difference sum exceeding 30. -/
def rowDifferentCount (ref tgt : RasterImage) (y : Nat) : Nat :=
  List.countP (fun x => decide (30 < pixelDiff (ref.px x y) (tgt.px x y)))
    (List.range ref.width)

/-- Outer loop `for y in range(ref_img.size[1])`: the differ's
`different_pixels` accumulator over the whole image. -/
def differentPixelCount (ref tgt : RasterImage) : Nat :=
  ((List.range ref.height).map (rowDifferentCount ref tgt)).sum

/-- `max_diff` accumulator restricted to row `y`. -/
def rowMaxDiff (ref tgt : RasterImage) (y : Nat) : Nat :=
  ((List.range ref.width).map
    (fun x => pixelDiff (ref.px x y) (tgt.px x y))).foldl max 0

/-- The differ's `max_diff` accumulator over the whole image. -/
def maxDiffValue (ref tgt : RasterImage) : Nat :=
  ((List.range ref.height).map (rowMaxDiff ref tgt)).foldl max 0

/-- The difference-visualization image written to `diff_pixels[x, y]`:
pure red where the channel-difference sum exceeds 30, otherwise the
grey of the candidate pixel. -/
def diffImage (ref tgt : RasterImage) : RasterImage :=
  { width := ref.width
    height := ref.height
    px := fun x y =>
      if 30 < pixelDiff (ref.px x y) (tgt.px x y) then
        { r := 255, g := 0, b := 0 }
      else
        { r := grayOf (tgt.px x y), g := grayOf (tgt.px x y),
          b := grayOf (tgt.px x y) } }

/-- The body of `compare_screenshots` after size normalization: counts
differing pixels, builds the diff image, and computes
`similarity_percentage = ((total_pixels - different_pixels) / total_pixels) * 100`
and `passed = similarity_percentage >= 95.0`.  The division by
`total_pixels` is unguarded in the source; a zero-area reference image
raises `ZeroDivisionError`, modelled as `none`. -/
def compareSameSize (ref tgt : RasterImage) : Option (DiffResult × RasterImage) :=
  let total := ref.width * ref.height
  let different := differentPixelCount ref tgt
  if total = 0 then none
  else
    let sim : ℚ := (((total : Nat) : ℚ) - ((different : Nat) : ℚ)) / ((total : Nat) : ℚ) * 100
    some ({ total_pixels := total
            different_pixels := different
            similarity_percentage := sim
            max_difference := maxDiffValue ref tgt
            passed := decide ((95 : ℚ) ≤ sim) },
          diffImage ref tgt)

/-- `VisualTester.compare_screenshots`: if the two images' sizes differ,
the candidate is resized to the reference's size
(`target_img.resize(ref_img.size, Image.Resampling.LANCZOS)`, modelled by
the abstract `resample` argument standing for PIL's LANCZOS resize),
then the per-pixel comparison runs at the reference's resolution. -/
def compare_screenshots (resample : RasterImage → Nat → Nat → RasterImage)
    (ref tgt : RasterImage) : Option (DiffResult × RasterImage) :=
  let tgt2 :=
    if ref.width = tgt.width ∧ ref.height = tgt.height then tgt
    else resample tgt ref.width ref.height
  compareSameSize ref tgt2

/-- The identity resample, used to instantiate the abstract `resample`
argument on inputs where no resize happens. -/
def idResample (img : RasterImage) (_w _h : Nat) : RasterImage := img

/-- Enumeration of all in-bounds pixel coordinates `(x, y)` of an image,
row by row, mirroring the differ's nested loops. -/
def allCoords (img : RasterImage) : List (Nat × Nat) :=
  (List.range img.height).flatMap (fun y =>
    (List.range img.width).map (fun x => (x, y)))

/-- The computed-style record built by the JavaScript snippet inside
`get_computed_styles`: the fixed set of CSS properties it copies out of
`window.getComputedStyle(element)`. -/
structure ComputedStyleSnapshot where
  fontFamily : String
  fontSize : String
  fontWeight : String
  color : String
  backgroundColor : String
  display : String
  position : String
  width : String
  height : String
  marginTop : String
  marginBottom : String
  paddingTop : String
  paddingBottom : String
  textAlign : String
deriving DecidableEq, Repr

/-- The geometry record built by the JavaScript snippet inside
`get_element_position` from `element.getBoundingClientRect()`. -/
structure GeometrySnapshot where
  x : ℚ
  y : ℚ
  width : ℚ
  height : ℚ
  top : ℚ
  left : ℚ
  right : ℚ
  bottom : ℚ
deriving DecidableEq, Repr

/-- An element as far as the extractor snippets observe it: its computed
style and its bounding client rect. -/
structure DomElement where
  style : ComputedStyleSnapshot
  rect : GeometrySnapshot

/-- A rendered page as far as the embedded code queries it:
`querySelector` returns the first element matching a selector, or `none`
when no element matches (JavaScript `null`). -/
structure DomPage where
  querySelector : String → Option DomElement

/-- `VisualTester.get_computed_styles`: evaluates a snippet which returns
`null` (`none`) when `document.querySelector(selector)` finds nothing,
and otherwise the `ComputedStyleSnapshot` of the first match.  Total:
absence is a value, not an exception. -/
def get_computed_styles (page : DomPage) (selector : String) :
    Option ComputedStyleSnapshot :=
  match page.querySelector selector with
  | none => none
  | some el => some el.style

/-- `VisualTester.get_element_position`: evaluates a snippet which returns
`null` (`none`) when no element matches, and otherwise the
`GeometrySnapshot` of the first match. -/
def get_element_position (page : DomPage) (selector : String) :
    Option GeometrySnapshot :=
  match page.querySelector selector with
  | none => none
  | some el => some el.rect

/-- Outcome of running one pytest test body: normal completion, a failed
`assert` (pytest records the message), or any other raised exception
(`TypeError`, `ZeroDivisionError`, navigation errors, ...). -/
inductive TestOutcome where
  | ok : TestOutcome
  | assertFailed : String → TestOutcome
  | error : String → TestOutcome
deriving DecidableEq, Repr

/-- `true` exactly on `TestOutcome.assertFailed`. -/
def TestOutcome.isAssertFailure : TestOutcome → Bool
  | .assertFailed _ => true
  | _ => false

/-- `true` exactly on `TestOutcome.error` (a crash that is not a failed
assertion). -/
def TestOutcome.isCrash : TestOutcome → Bool
  | .error _ => true
  | _ => false

/-- Release state of a matrix-cell's two rendering handles: whether each
`browser.new_page` handle was acquired, and whether `page.close()`
completed for it.  A handle leaks exactly when it was acquired but not
closed. -/
structure CellPagesState where
  refAcquired : Bool
  targetAcquired : Bool
  refClosed : Bool
  targetClosed : Bool
deriving DecidableEq, Repr

/-- What the external browser does during one run of
`TestHeaderLayout.test_header_exists`: whether each `browser.new_page`
raises, whether each `goto` raises, the two
`locator("header").count()` values, and whether each `page.close()`
raises. -/
structure HeaderExistsEnv where
  refNewPageError : Option String
  targetNewPageError : Option String
  refLoadError : Option String
  targetLoadError : Option String
  refHeaderCount : Nat
  targetHeaderCount : Nat
  refCloseError : Option String
  targetCloseError : Option String

/-- `TestHeaderLayout.test_header_exists`: acquires the two pages
*before* the `try` block, navigates both and asserts each page has a
header inside the `try`, and runs `page_ref.close()` then
`page_target.close()` in `finally`.  Faithful consequences of that
layout: a failure of the second `new_page` leaks the already-acquired
`page_ref` (no `finally` is active yet); the `finally` block runs for
every body outcome (success, failed assertion, navigation error); a
raising `page_ref.close()` leaves `page_ref` unreleased and skips
`page_target.close()`. -/
def test_header_exists (env : HeaderExistsEnv) :
    TestOutcome × CellPagesState :=
  match env.refNewPageError with
  | some e =>
    (.error e, { refAcquired := false, targetAcquired := false,
                 refClosed := false, targetClosed := false })
  | none =>
    match env.targetNewPageError with
    | some e =>
      (.error e, { refAcquired := true, targetAcquired := false,
                   refClosed := false, targetClosed := false })
    | none =>
      let body : TestOutcome :=
        match env.refLoadError with
        | some e => .error e
        | none =>
          match env.targetLoadError with
          | some e => .error e
          | none =>
            if 0 < env.refHeaderCount then
              if 0 < env.targetHeaderCount then .ok
              else .assertFailed "Target site missing header"
            else .assertFailed "Reference site missing header"
      match env.refCloseError with
      | some e =>
        (.error e, { refAcquired := true, targetAcquired := true,
                     refClosed := false, targetClosed := false })
      | none =>
        match env.targetCloseError with
        | some e =>
          (.error e, { refAcquired := true, targetAcquired := true,
                       refClosed := true, targetClosed := false })
        | none =>
          (body, { refAcquired := true, targetAcquired := true,
                   refClosed := true, targetClosed := true })

/-- What the external browser does during one run of
`TestHeaderLayout.test_header_fixed_position_desktop`: whether
`goto`/`wait_for_load_state` raises, and the rendered page handed to the
extractor. -/
structure FixedPosEnv where
  loadError : Option String
  page : DomPage

/-- `TestHeaderLayout.test_header_fixed_position_desktop`: inside `try`,
navigates, extracts `get_computed_styles(page, "header")`, then executes
`assert styles["position"] == "fixed"`.  When the extractor returned
`None`, the subscript `styles["position"]` raises `TypeError` — the test
crashes instead of failing an assertion.  The page is closed in
`finally` on every path (second component). -/
def test_header_fixed_position_desktop (env : FixedPosEnv)
    (viewport_name : String) : TestOutcome × Bool :=
  let body : TestOutcome :=
    match env.loadError with
    | some e => .error e
    | none =>
      match get_computed_styles env.page "header" with
      | none => .error "TypeError: NoneType object is not subscriptable"
      | some styles =>
        if styles.position = "fixed" then .ok
        else .assertFailed
          ("Header should be fixed on " ++ viewport_name ++ ", got "
            ++ styles.position)
  (body, true)

/-- What the external browser and filesystem do during one run of
`TestScreenshotComparison.test_page_screenshot_similarity`: whether each
`browser.new_page` raises, whether `output_dir.mkdir` raises, whether
the navigations raise, the two captured full-page screenshots, and
whether each `page.close()` raises. -/
structure ScreenshotEnv where
  refNewPageError : Option String
  targetNewPageError : Option String
  mkdirError : Option String
  refLoadError : Option String
  targetLoadError : Option String
  refShot : RasterImage
  targetShot : RasterImage
  refCloseError : Option String
  targetCloseError : Option String

/-- `TestScreenshotComparison.test_page_screenshot_similarity`: acquires
the two pages, then runs `output_dir.mkdir(parents=True, exist_ok=True)`
— still *before* the `try` block — then inside `try` navigates both
pages, captures both screenshots, calls `compare_screenshots`, writes
the result to `comparison_result.json` (the `Option DiffResult`
component), prints the similarity and — when `result["passed"]` is false
— only a warning line; no assertion is raised on the comparison result.
`page_ref.close()` then `page_target.close()` run in `finally`.
Faithful consequences of that layout: a failure of the second `new_page`
leaks `page_ref`; a raising `mkdir` leaks both acquired pages (the
`try` was never entered); the `finally` runs for every body outcome; a
raising `page_ref.close()` leaves `page_ref` unreleased and skips
`page_target.close()`. -/
def test_page_screenshot_similarity
    (resample : RasterImage → Nat → Nat → RasterImage)
    (env : ScreenshotEnv) :
    TestOutcome × Option DiffResult × CellPagesState :=
  match env.refNewPageError with
  | some e =>
    (.error e, none, { refAcquired := false, targetAcquired := false,
                       refClosed := false, targetClosed := false })
  | none =>
    match env.targetNewPageError with
    | some e =>
      (.error e, none, { refAcquired := true, targetAcquired := false,
                         refClosed := false, targetClosed := false })
    | none =>
      match env.mkdirError with
      | some e =>
        (.error e, none, { refAcquired := true, targetAcquired := true,
                           refClosed := false, targetClosed := false })
      | none =>
        let body : TestOutcome × Option DiffResult :=
          match env.refLoadError with
          | some e => (.error e, none)
          | none =>
            match env.targetLoadError with
            | some e => (.error e, none)
            | none =>
              match compare_screenshots resample env.refShot env.targetShot with
              | none => (.error "ZeroDivisionError: division by zero", none)
              | some (result, _) => (.ok, some result)
        match env.refCloseError with
        | some e =>
          (.error e, body.2, { refAcquired := true, targetAcquired := true,
                               refClosed := false, targetClosed := false })
        | none =>
          match env.targetCloseError with
          | some e =>
            (.error e, body.2, { refAcquired := true, targetAcquired := true,
                                 refClosed := true, targetClosed := false })
          | none =>
            (body.1, body.2, { refAcquired := true, targetAcquired := true,
                               refClosed := true, targetClosed := true })

/-- A viewport configuration (`VIEWPORTS` values). -/
structure Viewport where
  width : Nat
  height : Nat
deriving DecidableEq, Repr

/-- The `VIEWPORTS` catalogue of the test module. -/
def VIEWPORTS : List (String × Viewport) :=
  [("mobile", { width := 375, height := 667 }),
   ("tablet", { width := 768, height := 1024 }),
   ("desktop", { width := 1440, height := 900 }),
   ("wide", { width := 1920, height := 1080 })]

/-- The parametrization of `test_header_fixed_position_desktop`:
`[(k, v) for k, v in VIEWPORTS.items() if v["width"] >= 992]`. -/
def fixedPositionDesktopParams : List (String × Viewport) :=
  VIEWPORTS.filter (fun kv => 992 ≤ kv.2.width)

/-- The parametrization of `test_homepage_two_column_layout`:
`[(k, v) for k, v in VIEWPORTS.items() if v["width"] >= 640]`. -/
def twoColumnLayoutParams : List (String × Viewport) :=
  VIEWPORTS.filter (fun kv => 640 ≤ kv.2.width)

/-! ### Helper lemmas about the Raster Differ -/

theorem pixelDiff_self (p : Pixel) : pixelDiff p p = 0 := by
  simp [pixelDiff, natDist]

theorem mem_allCoords (img : RasterImage) (xy : Nat × Nat) :
    xy ∈ allCoords img ↔ xy.1 < img.width ∧ xy.2 < img.height := by
  rcases xy with ⟨x, y⟩
  simp only [allCoords, List.mem_flatMap, List.mem_map, List.mem_range]
  constructor
  · rintro ⟨y', hy', x', hx', hxy⟩
    rcases Prod.mk.injEq .. ▸ hxy with ⟨hx, hy⟩
    exact ⟨hx ▸ hx', (hy.symm ▸ hy' : y < img.height)⟩
  · rintro ⟨hx, hy⟩
    exact ⟨y, hy, x, hx, rfl⟩

theorem allCoords_length (img : RasterImage) :
    (allCoords img).length = img.height * img.width := by
  unfold allCoords
  have h : ∀ l : List Nat,
      (l.flatMap (fun y => (List.range img.width).map (fun x => (x, y)))).length
        = l.length * img.width := by
    intro l
    induction l with
    | nil => simp
    | cons a l ih => simp [ih, Nat.succ_mul, Nat.add_comm]
  simpa using h (List.range img.height)

theorem differentPixelCount_eq_countP (ref tgt : RasterImage) :
    differentPixelCount ref tgt =
      List.countP
        (fun xy => decide (30 < pixelDiff (ref.px xy.1 xy.2) (tgt.px xy.1 xy.2)))
        (allCoords ref) := by
  unfold differentPixelCount allCoords
  have h : ∀ l : List Nat,
      (l.map (rowDifferentCount ref tgt)).sum =
        List.countP
          (fun xy => decide (30 < pixelDiff (ref.px xy.1 xy.2) (tgt.px xy.1 xy.2)))
          (l.flatMap (fun y => (List.range ref.width).map (fun x => (x, y)))) := by
    intro l
    induction l with
    | nil => rfl
    | cons a l ih =>
      simp only [List.map_cons, List.sum_cons, List.flatMap_cons,
        List.countP_append, ih, List.countP_map]
      rfl
  exact h (List.range ref.height)

theorem differentPixelCount_le (ref tgt : RasterImage) :
    differentPixelCount ref tgt ≤ ref.width * ref.height := by
  calc differentPixelCount ref tgt
      ≤ (allCoords ref).length := by
        rw [differentPixelCount_eq_countP]; exact List.countP_le_length _
    _ = ref.height * ref.width := allCoords_length ref
    _ = ref.width * ref.height := Nat.mul_comm _ _

theorem compareSameSize_pos (ref tgt : RasterImage)
    (h : ref.width * ref.height ≠ 0) :
    compareSameSize ref tgt =
      some ({ total_pixels := ref.width * ref.height
              different_pixels := differentPixelCount ref tgt
              similarity_percentage :=
                (((ref.width * ref.height : Nat) : ℚ)
                  - ((differentPixelCount ref tgt : Nat) : ℚ))
                  / ((ref.width * ref.height : Nat) : ℚ) * 100
              max_difference := maxDiffValue ref tgt
              passed := decide ((95 : ℚ) ≤
                (((ref.width * ref.height : Nat) : ℚ)
                  - ((differentPixelCount ref tgt : Nat) : ℚ))
                  / ((ref.width * ref.height : Nat) : ℚ) * 100) },
            diffImage ref tgt) := by
  unfold compareSameSize
  simp [h]

theorem compare_screenshots_same_size (resample : RasterImage → Nat → Nat → RasterImage)
    (ref tgt : RasterImage) (hw : ref.width = tgt.width) (hh : ref.height = tgt.height) :
    compare_screenshots resample ref tgt = compareSameSize ref tgt := by
  unfold compare_screenshots
  simp [hw, hh]

theorem compare_screenshots_resized (resample : RasterImage → Nat → Nat → RasterImage)
    (ref tgt : RasterImage) (h : ¬(ref.width = tgt.width ∧ ref.height = tgt.height)) :
    compare_screenshots resample ref tgt =
      compareSameSize ref (resample tgt ref.width ref.height) := by
  unfold compare_screenshots
  simp [h]

/-! ### Concrete images used to instantiate the theorems -/

/-- A 1×1 all-black image. -/
def oneBlack : RasterImage :=
  { width := 1, height := 1, px := fun _ _ => { r := 0, g := 0, b := 0 } }

/-- A 1×1 all-white image. -/
def oneWhite : RasterImage :=
  { width := 1, height := 1, px := fun _ _ => { r := 255, g := 255, b := 255 } }

/-- A 2×1 reference image: black pixel at x = 0, near-black at x = 1. -/
def refTwo : RasterImage :=
  { width := 2, height := 1,
    px := fun x _ => if x = 0 then { r := 0, g := 0, b := 0 }
                     else { r := 10, g := 10, b := 10 } }

/-- A 2×1 candidate image: white at x = 0 (a "different" pixel), and
`(20, 20, 20)` at x = 1 (channel-difference sum exactly 30, not
different). -/
def tgtTwo : RasterImage :=
  { width := 2, height := 1,
    px := fun x _ => if x = 0 then { r := 255, g := 255, b := 255 }
                     else { r := 20, g := 20, b := 20 } }

/-- A 2×2 constant-colour image, compared against itself. -/
def imgTwoSame : RasterImage :=
  { width := 2, height := 2, px := fun _ _ => { r := 7, g := 8, b := 9 } }

/-- A 100×100 all-black image (concrete scenario C, reference). -/
def black100 : RasterImage :=
  { width := 100, height := 100, px := fun _ _ => { r := 0, g := 0, b := 0 } }

/-- A 100×100 all-white image (concrete scenario C, candidate). -/
def white100 : RasterImage :=
  { width := 100, height := 100, px := fun _ _ => { r := 255, g := 255, b := 255 } }

/-- A zero-area image. -/
def zeroImage : RasterImage :=
  { width := 0, height := 0, px := fun _ _ => { r := 0, g := 0, b := 0 } }

/-- The `DiffResult` the differ produces on `refTwo` vs `tgtTwo`. -/
def resTwo : DiffResult :=
  { total_pixels := 2, different_pixels := 1, similarity_percentage := 50,
    max_difference := 765, passed := false }

/-- The `DiffResult` the differ produces on `oneBlack` vs `oneWhite`. -/
def resOne : DiffResult :=
  { total_pixels := 1, different_pixels := 1, similarity_percentage := 0,
    max_difference := 765, passed := false }

/-- The `DiffResult` the differ produces on `imgTwoSame` vs itself. -/
def resSame : DiffResult :=
  { total_pixels := 4, different_pixels := 0, similarity_percentage := 100,
    max_difference := 0, passed := true }

/-- The `DiffResult` the differ produces on `black100` vs `white100`
(concrete scenario C). -/
def resScenC : DiffResult :=
  { total_pixels := 10000, different_pixels := 10000,
    similarity_percentage := 0, max_difference := maxDiffValue black100 white100,
    passed := false }

/-! ### Claims -/

/-- C1: for same-size RGB images, `compare_screenshots` classifies a pixel
as "different" exactly when the sum of absolute per-channel differences
exceeds 30 (`different_pixels` counts exactly those coordinates), a
different pixel is written to the visualization as pure red (255, 0, 0),
and a non-different pixel is written as the grayscale pixel whose three
channels equal the candidate pixel's integer-average luminance
`(r + g + b) / 3`. -/
theorem c1_pixel_classification
    (resample : RasterImage → Nat → Nat → RasterImage)
    (ref tgt : RasterImage) (res : DiffResult) (img : RasterImage)
    (hw : ref.width = tgt.width) (hh : ref.height = tgt.height)
    (h : compare_screenshots resample ref tgt = some (res, img)) :
    res.different_pixels =
      List.countP
        (fun xy => decide (30 < pixelDiff (ref.px xy.1 xy.2) (tgt.px xy.1 xy.2)))
        (allCoords ref) ∧
    ∀ x y, x < ref.width → y < ref.height →
      (30 < pixelDiff (ref.px x y) (tgt.px x y) →
        img.px x y = { r := 255, g := 0, b := 0 }) ∧
      (¬ 30 < pixelDiff (ref.px x y) (tgt.px x y) →
        img.px x y = { r := grayOf (tgt.px x y), g := grayOf (tgt.px x y),
                       b := grayOf (tgt.px x y) }) := by
  rw [compare_screenshots_same_size resample ref tgt hw hh] at h
  by_cases h0 : ref.width * ref.height = 0
  · simp [compareSameSize, h0] at h
  · rw [compareSameSize_pos ref tgt h0] at h
    simp only [Option.some.injEq, Prod.mk.injEq] at h
    obtain ⟨hres, himg⟩ := h
    subst hres
    subst himg
    refine ⟨differentPixelCount_eq_countP ref tgt, ?_⟩
    intro x y _ _
    constructor
    · intro hd
      simp [diffImage, hd]
    · intro hnd
      simp [diffImage, hnd]

/-- Witness for C1 on the concrete pair `refTwo`/`tgtTwo`: the left pixel
(difference sum 765 > 30) is red in the diff image, the right pixel
(difference sum exactly 30) is the grayscale of the candidate pixel, and
`different_pixels = 1` counts exactly the coordinates over threshold. -/
theorem c1_pixel_classification_witness :
    refTwo.width = tgtTwo.width ∧ refTwo.height = tgtTwo.height ∧
    compare_screenshots idResample refTwo tgtTwo =
      some (resTwo, diffImage refTwo tgtTwo) ∧
    resTwo.different_pixels =
      List.countP
        (fun xy => decide (30 < pixelDiff (refTwo.px xy.1 xy.2) (tgtTwo.px xy.1 xy.2)))
        (allCoords refTwo) ∧
    (diffImage refTwo tgtTwo).px 0 0 = { r := 255, g := 0, b := 0 } ∧
    (diffImage refTwo tgtTwo).px 1 0 = { r := 20, g := 20, b := 20 } := by
  have hsome : compare_screenshots idResample refTwo tgtTwo =
      some (resTwo, diffImage refTwo tgtTwo) := by
    rw [compare_screenshots_same_size idResample refTwo tgtTwo rfl rfl,
      compareSameSize_pos refTwo tgtTwo (by decide)]
    have hc : differentPixelCount refTwo tgtTwo = 1 := by decide
    have hm : maxDiffValue refTwo tgtTwo = 765 := by decide
    have ht : refTwo.width * refTwo.height = 2 := by decide
    rw [hc, hm, ht]
    simp only [Option.some.injEq, Prod.mk.injEq, resTwo, DiffResult.mk.injEq]
    refine ⟨⟨trivial, trivial, by norm_num, trivial, ?_⟩, trivial⟩
    rw [decide_eq_false]
    norm_num
  obtain ⟨hcount, hpx⟩ :=
    c1_pixel_classification idResample refTwo tgtTwo resTwo
      (diffImage refTwo tgtTwo) rfl rfl hsome
  refine ⟨rfl, rfl, hsome, hcount, ?_, ?_⟩
  · exact (hpx 0 0 (by decide) (by decide)).1 (by decide)
  · exact (hpx 1 0 (by decide) (by decide)).2 (by decide)

/-- C2: every `DiffResult` returned by `compare_screenshots` has
`different_pixels ≤ total_pixels`, its `similarity_percentage` equals
`(total_pixels - different_pixels) / total_pixels * 100` recomputed from
those two fields, and `passed` holds exactly when
`similarity_percentage ≥ 95`. -/
theorem c2_diffresult_invariants
    (resample : RasterImage → Nat → Nat → RasterImage)
    (ref tgt : RasterImage) (res : DiffResult) (img : RasterImage)
    (h : compare_screenshots resample ref tgt = some (res, img)) :
    res.different_pixels ≤ res.total_pixels ∧
    res.similarity_percentage =
      ((res.total_pixels : ℚ) - (res.different_pixels : ℚ))
        / (res.total_pixels : ℚ) * 100 ∧
    (res.passed = true ↔ (95 : ℚ) ≤ res.similarity_percentage) := by
  unfold compare_screenshots at h
  by_cases h0 : ref.width * ref.height = 0
  · simp [compareSameSize, h0] at h
  · rw [compareSameSize_pos ref _ h0] at h
    simp only [Option.some.injEq, Prod.mk.injEq] at h
    obtain ⟨hres, himg⟩ := h
    subst hres
    refine ⟨differentPixelCount_le ref _, rfl, ?_⟩
    exact decide_eq_true_iff

/-- Concrete evaluation of the differ on `oneBlack` vs `oneWhite`,
shared by several instantiations below. -/
theorem compare_oneBlack_oneWhite_eq :
    compare_screenshots idResample oneBlack oneWhite =
      some (resOne, diffImage oneBlack oneWhite) := by
  rw [compare_screenshots_same_size idResample oneBlack oneWhite rfl rfl,
    compareSameSize_pos oneBlack oneWhite (by decide)]
  have hc : differentPixelCount oneBlack oneWhite = 1 := by decide
  have hm : maxDiffValue oneBlack oneWhite = 765 := by decide
  have ht : oneBlack.width * oneBlack.height = 1 := by decide
  rw [hc, hm, ht]
  simp only [Option.some.injEq, Prod.mk.injEq, resOne, DiffResult.mk.injEq]
  refine ⟨⟨trivial, trivial, by norm_num, trivial, ?_⟩, trivial⟩
  rw [decide_eq_false]
  norm_num

/-- Witness for C2 on `oneBlack` vs `oneWhite` (one pixel, different):
the returned record satisfies all three invariants. -/
theorem c2_diffresult_invariants_witness :
    compare_screenshots idResample oneBlack oneWhite =
      some (resOne, diffImage oneBlack oneWhite) ∧
    resOne.different_pixels ≤ resOne.total_pixels ∧
    resOne.similarity_percentage =
      ((resOne.total_pixels : ℚ) - (resOne.different_pixels : ℚ))
        / (resOne.total_pixels : ℚ) * 100 ∧
    (resOne.passed = true ↔ (95 : ℚ) ≤ resOne.similarity_percentage) := by
  obtain ⟨h1, h2, h3⟩ := c2_diffresult_invariants idResample oneBlack oneWhite
    resOne (diffImage oneBlack oneWhite) compare_oneBlack_oneWhite_eq
  exact ⟨compare_oneBlack_oneWhite_eq, h1, h2, h3⟩

/-- C3: on pixel-for-pixel equal same-size images (raster images have
positive dimensions), `compare_screenshots` reports `different_pixels = 0`,
`similarity_percentage = 100` and `passed = true`. -/
theorem c3_identical_images
    (resample : RasterImage → Nat → Nat → RasterImage)
    (ref tgt : RasterImage)
    (hw : ref.width = tgt.width) (hh : ref.height = tgt.height)
    (hwpos : 0 < ref.width) (hhpos : 0 < ref.height)
    (hpx : ∀ x y, x < ref.width → y < ref.height → ref.px x y = tgt.px x y) :
    ∃ res img, compare_screenshots resample ref tgt = some (res, img) ∧
      res.different_pixels = 0 ∧ res.similarity_percentage = 100 ∧
      res.passed = true := by
  have h0 : ref.width * ref.height ≠ 0 := Nat.mul_ne_zero hwpos.ne' hhpos.ne'
  have hTQ : ((ref.width * ref.height : Nat) : ℚ) ≠ 0 := by exact_mod_cast h0
  have hcount : differentPixelCount ref tgt = 0 := by
    rw [differentPixelCount_eq_countP, List.countP_eq_zero]
    intro xy hxy
    rw [mem_allCoords] at hxy
    simp only [decide_eq_true_eq]
    rw [hpx xy.1 xy.2 hxy.1 hxy.2, pixelDiff_self]
    omega
  have hsim : (((ref.width * ref.height : Nat) : ℚ) - ((0 : Nat) : ℚ))
      / ((ref.width * ref.height : Nat) : ℚ) * 100 = 100 := by
    rw [Nat.cast_zero, sub_zero, div_self hTQ, one_mul]
  rw [compare_screenshots_same_size resample ref tgt hw hh,
    compareSameSize_pos ref tgt h0, hcount]
  refine ⟨_, _, rfl, rfl, hsim, ?_⟩
  exact decide_eq_true (by rw [hsim]; norm_num)

/-- Witness for C3: `imgTwoSame` compared against itself. -/
theorem c3_identical_images_witness :
    (0 < imgTwoSame.width ∧ 0 < imgTwoSame.height) ∧
    compare_screenshots idResample imgTwoSame imgTwoSame =
      some (resSame, diffImage imgTwoSame imgTwoSame) ∧
    resSame.different_pixels = 0 ∧ resSame.similarity_percentage = 100 ∧
    resSame.passed = true := by
  have hsome : compare_screenshots idResample imgTwoSame imgTwoSame =
      some (resSame, diffImage imgTwoSame imgTwoSame) := by
    rw [compare_screenshots_same_size idResample imgTwoSame imgTwoSame rfl rfl,
      compareSameSize_pos imgTwoSame imgTwoSame (by decide)]
    have hc : differentPixelCount imgTwoSame imgTwoSame = 0 := by decide
    have hm : maxDiffValue imgTwoSame imgTwoSame = 0 := by decide
    have ht : imgTwoSame.width * imgTwoSame.height = 4 := by decide
    rw [hc, hm, ht]
    simp only [Option.some.injEq, Prod.mk.injEq, resSame, DiffResult.mk.injEq]
    refine ⟨⟨trivial, trivial, by norm_num, trivial, ?_⟩, trivial⟩
    rw [decide_eq_true]
    norm_num
  obtain ⟨res, img, heq, h1, h2, h3⟩ :=
    c3_identical_images idResample imgTwoSame imgTwoSame rfl rfl
      (by decide) (by decide) (fun _ _ _ _ => rfl)
  rw [hsome] at heq
  simp only [Option.some.injEq, Prod.mk.injEq] at heq
  obtain ⟨hres, _⟩ := heq
  rw [← hres] at h1 h2 h3
  exact ⟨⟨by decide, by decide⟩, hsome, h1, h2, h3⟩

/-- C4: when every in-bounds pixel's channel-difference sum exceeds the
threshold 30 (and the images have positive dimensions),
`compare_screenshots` reports `different_pixels = total_pixels`,
`similarity_percentage = 0` and `passed = false`. -/
theorem c4_all_pixels_different
    (resample : RasterImage → Nat → Nat → RasterImage)
    (ref tgt : RasterImage)
    (hw : ref.width = tgt.width) (hh : ref.height = tgt.height)
    (hwpos : 0 < ref.width) (hhpos : 0 < ref.height)
    (hall : ∀ x y, x < ref.width → y < ref.height →
      30 < pixelDiff (ref.px x y) (tgt.px x y)) :
    ∃ res img, compare_screenshots resample ref tgt = some (res, img) ∧
      res.total_pixels = ref.width * ref.height ∧
      res.different_pixels = res.total_pixels ∧
      res.similarity_percentage = 0 ∧ res.passed = false := by
  have h0 : ref.width * ref.height ≠ 0 := Nat.mul_ne_zero hwpos.ne' hhpos.ne'
  have hcount : differentPixelCount ref tgt = ref.width * ref.height := by
    rw [differentPixelCount_eq_countP, List.countP_eq_length.mpr, allCoords_length,
      Nat.mul_comm]
    intro xy hxy
    rw [mem_allCoords] at hxy
    exact decide_eq_true (hall xy.1 xy.2 hxy.1 hxy.2)
  have hsim : (((ref.width * ref.height : Nat) : ℚ)
      - ((ref.width * ref.height : Nat) : ℚ))
      / ((ref.width * ref.height : Nat) : ℚ) * 100 = 0 := by
    rw [sub_self, zero_div, zero_mul]
  rw [compare_screenshots_same_size resample ref tgt hw hh,
    compareSameSize_pos ref tgt h0, hcount]
  refine ⟨_, _, rfl, rfl, rfl, hsim, ?_⟩
  exact decide_eq_false (by rw [hsim]; norm_num)

/-- Witness for C4: concrete scenario C, a 100×100 all-black reference
against an all-white candidate: `different_pixels = 10000`,
`similarity_percentage = 0`, `passed = false`. -/
theorem c4_all_pixels_different_witness :
    (0 < black100.width ∧ 0 < black100.height) ∧
    compare_screenshots idResample black100 white100 =
      some (resScenC, diffImage black100 white100) ∧
    resScenC.different_pixels = 10000 ∧
    resScenC.similarity_percentage = 0 ∧ resScenC.passed = false := by
  have hc : differentPixelCount black100 white100 = 10000 := by
    have hall : ∀ xy ∈ allCoords black100,
        (fun xy : Nat × Nat =>
          decide (30 < pixelDiff (black100.px xy.1 xy.2) (white100.px xy.1 xy.2))) xy
          = true := by
      intro xy _
      exact decide_eq_true ((by decide : (30:Nat) < 765))
    rw [differentPixelCount_eq_countP, List.countP_eq_length.mpr hall,
      allCoords_length]
    decide
  have hsome : compare_screenshots idResample black100 white100 =
      some (resScenC, diffImage black100 white100) := by
    rw [compare_screenshots_same_size idResample black100 white100 rfl rfl,
      compareSameSize_pos black100 white100 (by decide), hc,
      show black100.width * black100.height = 10000 from by decide]
    simp only [Option.some.injEq, Prod.mk.injEq, resScenC, DiffResult.mk.injEq]
    refine ⟨⟨trivial, trivial, by norm_num, trivial, ?_⟩, trivial⟩
    rw [decide_eq_false]
    norm_num
  obtain ⟨res, img, heq, ht, hd, hs, hp⟩ :=
    c4_all_pixels_different idResample black100 white100 rfl rfl
      (by decide) (by decide) (fun x y _ _ => (by decide : (30:Nat) < 765))
  rw [hsome] at heq
  simp only [Option.some.injEq, Prod.mk.injEq] at heq
  obtain ⟨hres, _⟩ := heq
  rw [← hres] at ht hd hs hp
  refine ⟨⟨by decide, by decide⟩, hsome, ?_, hs, hp⟩
  rw [hd, ht]
  decide

/-- C5: `compare_screenshots` normalizes sizes before comparing: every
returned result has `total_pixels` at the reference's resolution; when
the candidate's dimensions differ from the reference's, the candidate is
first resampled (the source's `Image.Resampling.LANCZOS` resize, modelled
by the abstract `resample`) to the reference's dimensions; and when the
dimensions already match, no resampling occurs: the result is identical
to running the comparison without the normalization step
(`compareSameSize`). -/
theorem c5_normalization
    (resample : RasterImage → Nat → Nat → RasterImage)
    (ref tgt : RasterImage) :
    (∀ res img, compare_screenshots resample ref tgt = some (res, img) →
      res.total_pixels = ref.width * ref.height) ∧
    (¬(ref.width = tgt.width ∧ ref.height = tgt.height) →
      compare_screenshots resample ref tgt =
        compareSameSize ref (resample tgt ref.width ref.height)) ∧
    ((ref.width = tgt.width ∧ ref.height = tgt.height) →
      compare_screenshots resample ref tgt = compareSameSize ref tgt) := by
  refine ⟨?_, compare_screenshots_resized resample ref tgt,
    fun h => compare_screenshots_same_size resample ref tgt h.1 h.2⟩
  intro res img h
  unfold compare_screenshots at h
  by_cases h0 : ref.width * ref.height = 0
  · simp [compareSameSize, h0] at h
  · rw [compareSameSize_pos ref _ h0] at h
    simp only [Option.some.injEq, Prod.mk.injEq] at h
    obtain ⟨hres, _⟩ := h
    rw [← hres]

/-- Witness for C5: a size mismatch (1×1 vs 2×2) routes through the
resample; matching sizes (1×1 vs 1×1) compare without normalization, and
the returned `total_pixels` is the reference's resolution. -/
theorem c5_normalization_witness :
    ¬(oneBlack.width = imgTwoSame.width ∧ oneBlack.height = imgTwoSame.height) ∧
    compare_screenshots idResample oneBlack imgTwoSame =
      compareSameSize oneBlack (idResample imgTwoSame oneBlack.width oneBlack.height) ∧
    (oneBlack.width = oneWhite.width ∧ oneBlack.height = oneWhite.height) ∧
    compare_screenshots idResample oneBlack oneWhite =
      compareSameSize oneBlack oneWhite ∧
    resOne.total_pixels = oneBlack.width * oneBlack.height := by
  have h1 := (c5_normalization idResample oneBlack imgTwoSame).2.1 (by decide)
  have h2 := (c5_normalization idResample oneBlack oneWhite).2.2 ⟨rfl, rfl⟩
  have h3 := (c5_normalization idResample oneBlack oneWhite).1 resOne
    (diffImage oneBlack oneWhite) compare_oneBlack_oneWhite_eq
  exact ⟨by decide, h1, ⟨rfl, rfl⟩, h2, h3⟩

/-- A rendering with no matching element for any selector. -/
def emptyPage : DomPage := { querySelector := fun _ => none }

/-- A `test_header_fixed_position_desktop` run in which navigation
succeeds but the page has no `header` element. -/
def emptyFixedEnv : FixedPosEnv := { loadError := none, page := emptyPage }

/-- C6 counterexample: on a rendering with no `header` element the
extractor does return the absent sentinel, but the fixed-position check
built on it then crashes with a `TypeError` (Python subscripts the
`None` result: `styles["position"]`) instead of failing with the reason
"element not found" — no check in the module produces an
"element not found" failure. -/
theorem c6_absent_counterexample :
    get_computed_styles emptyPage "header" = none ∧
    (test_header_fixed_position_desktop emptyFixedEnv "desktop").1 =
      TestOutcome.error "TypeError: NoneType object is not subscriptable" ∧
    (test_header_fixed_position_desktop emptyFixedEnv "desktop").1.isAssertFailure
      = false ∧
    (test_header_fixed_position_desktop emptyFixedEnv "desktop").1 ≠
      TestOutcome.assertFailed "element not found" := by
  refine ⟨rfl, rfl, rfl, by decide⟩

/-- C6 amended: for every rendering handle and selector with no matching
element, `get_computed_styles` and `get_element_position` return the
absent sentinel `none` and never raise (they are total functions); but
the fixed-position check built on that output crashes with a `TypeError`
when the `header` element is absent, rather than failing with reason
"element not found". -/
theorem c6_absent_behaviour (page : DomPage) (sel : String)
    (h : page.querySelector sel = none) :
    get_computed_styles page sel = none ∧
    get_element_position page sel = none ∧
    (page.querySelector "header" = none → ∀ vname,
      (test_header_fixed_position_desktop { loadError := none, page := page }
        vname).1 =
        TestOutcome.error "TypeError: NoneType object is not subscriptable") := by
  refine ⟨?_, ?_, ?_⟩
  · unfold get_computed_styles
    rw [h]
  · unfold get_element_position
    rw [h]
  · intro hh vname
    unfold test_header_fixed_position_desktop
    simp only [get_computed_styles, hh]

/-- Witness for the amended C6 at the concrete header-less rendering. -/
theorem c6_absent_behaviour_witness :
    emptyPage.querySelector "header" = none ∧
    get_computed_styles emptyPage "header" = none ∧
    get_element_position emptyPage "header" = none ∧
    (test_header_fixed_position_desktop emptyFixedEnv "desktop").1 =
      TestOutcome.error "TypeError: NoneType object is not subscriptable" := by
  obtain ⟨h1, h2, h3⟩ := c6_absent_behaviour emptyPage "header" rfl
  exact ⟨rfl, h1, h2, h3 rfl "desktop"⟩

/-- C7: a below-threshold comparison result (`passed = false`) never
fails the screenshot-comparison cell: when the cell's setup (page
acquisition and output-directory creation), navigations and close calls
succeed and the differ returns a result, the test records the result and
finishes with outcome `ok` — no assertion is raised on the similarity
score. -/
theorem c7_similarity_not_fatal
    (resample : RasterImage → Nat → Nat → RasterImage)
    (env : ScreenshotEnv) (res : DiffResult) (img : RasterImage)
    (hnp1 : env.refNewPageError = none) (hnp2 : env.targetNewPageError = none)
    (hmk : env.mkdirError = none)
    (href : env.refLoadError = none) (htgt : env.targetLoadError = none)
    (hcmp : compare_screenshots resample env.refShot env.targetShot
      = some (res, img))
    (hc1 : env.refCloseError = none) (hc2 : env.targetCloseError = none)
    (_hfail : res.passed = false) :
    (test_page_screenshot_similarity resample env).1 = TestOutcome.ok ∧
    (test_page_screenshot_similarity resample env).2.1 = some res := by
  unfold test_page_screenshot_similarity
  rw [hnp1, hnp2, hmk, href, htgt, hcmp, hc1, hc2]
  exact ⟨rfl, rfl⟩

/-- The screenshot-comparison cell on a pair that is 0% similar, with no
browser or filesystem failure. -/
def envBelow : ScreenshotEnv :=
  { refNewPageError := none, targetNewPageError := none, mkdirError := none,
    refLoadError := none, targetLoadError := none,
    refShot := oneBlack, targetShot := oneWhite,
    refCloseError := none, targetCloseError := none }

/-- Witness for C7: similarity 0% (far below 95%) still yields outcome
`ok`, with the failing result recorded. -/
theorem c7_similarity_not_fatal_witness :
    envBelow.refLoadError = none ∧ envBelow.targetLoadError = none ∧
    compare_screenshots idResample envBelow.refShot envBelow.targetShot =
      some (resOne, diffImage oneBlack oneWhite) ∧
    resOne.passed = false ∧
    (test_page_screenshot_similarity idResample envBelow).1 = TestOutcome.ok ∧
    (test_page_screenshot_similarity idResample envBelow).2.1 = some resOne := by
  obtain ⟨h1, h2⟩ := c7_similarity_not_fatal idResample envBelow resOne
    (diffImage oneBlack oneWhite) rfl rfl rfl rfl rfl
    compare_oneBlack_oneWhite_eq rfl rfl rfl
  exact ⟨rfl, rfl, compare_oneBlack_oneWhite_eq, rfl, h1, h2⟩

/-- A screenshot cell in which both pages were acquired and then
`output_dir.mkdir(parents=True, exist_ok=True)` — which the source runs
between page acquisition and the `try` — raises, e.g. because a regular
file already sits at the output path. -/
def leakMkdirEnv : ScreenshotEnv :=
  { refNewPageError := none, targetNewPageError := none,
    mkdirError := some "FileExistsError: output path is a regular file",
    refLoadError := none, targetLoadError := none,
    refShot := oneBlack, targetShot := oneWhite,
    refCloseError := none, targetCloseError := none }

/-- A header-exists cell in which the second `browser.new_page` raises
after the first page was acquired. -/
def leakNewPageEnv : HeaderExistsEnv :=
  { refNewPageError := none,
    targetNewPageError := some "Error: browser has been closed",
    refLoadError := none, targetLoadError := none,
    refHeaderCount := 1, targetHeaderCount := 1,
    refCloseError := none, targetCloseError := none }

/-- A header-exists cell in which everything succeeds except
`page_ref.close()` in the `finally` block. -/
def leakCloseEnv : HeaderExistsEnv :=
  { refNewPageError := none, targetNewPageError := none,
    refLoadError := none, targetLoadError := none,
    refHeaderCount := 1, targetHeaderCount := 1,
    refCloseError := some "Error: page close failed",
    targetCloseError := none }

/-- C8 counterexample: release of acquired rendering handles is *not*
guaranteed on every execution path, so a leaked handle is reachable.
Concretely: (i) when `output_dir.mkdir` — run after both pages are
acquired but before the `try` — raises, both acquired pages leak;
(ii) when the second `browser.new_page` of `test_header_exists` raises,
the first acquired page leaks; (iii) when `page_ref.close()` raises
inside `finally`, `page_ref` stays unreleased and
`page_target.close()` is skipped. -/
theorem c8_handles_released_counterexample :
    (test_page_screenshot_similarity idResample leakMkdirEnv).2.2 =
      { refAcquired := true, targetAcquired := true,
        refClosed := false, targetClosed := false } ∧
    (test_header_exists leakNewPageEnv).2 =
      { refAcquired := true, targetAcquired := false,
        refClosed := false, targetClosed := false } ∧
    (test_header_exists leakCloseEnv).2 =
      { refAcquired := true, targetAcquired := true,
        refClosed := false, targetClosed := false } :=
  ⟨rfl, rfl, rfl⟩

/-- C8 corrected: on every execution path that reaches the `try` block —
i.e. when both `browser.new_page` calls and, for the screenshot cell,
`output_dir.mkdir` succeed — `page_ref.close()` is invoked no matter how
the body ends (success, failed assertion, navigation error or differ
error), and `page_target.close()` is invoked provided `page_ref.close()`
itself does not raise; a failing assertion never skips the release
step.  Release is not guaranteed on the setup-failure and
first-close-failure paths exhibited by the counterexample. -/
theorem c8_handles_released_scoped :
    (∀ env : HeaderExistsEnv,
      env.refNewPageError = none → env.targetNewPageError = none →
      env.refCloseError = none →
      ((test_header_exists env).2.refClosed = true ∧
        (env.targetCloseError = none →
          (test_header_exists env).2.targetClosed = true))) ∧
    (∀ resample : RasterImage → Nat → Nat → RasterImage,
     ∀ env : ScreenshotEnv,
      env.refNewPageError = none → env.targetNewPageError = none →
      env.mkdirError = none → env.refCloseError = none →
      ((test_page_screenshot_similarity resample env).2.2.refClosed = true ∧
        (env.targetCloseError = none →
          (test_page_screenshot_similarity resample env).2.2.targetClosed
            = true))) := by
  constructor
  · intro env h1 h2 h3
    unfold test_header_exists
    rw [h1, h2, h3]
    refine ⟨?_, ?_⟩
    · rcases h4 : env.targetCloseError with _ | e
      · rfl
      · rfl
    · intro h4
      rw [h4]
  · intro resample env h1 h2 h3 h4
    unfold test_page_screenshot_similarity
    rw [h1, h2, h3, h4]
    refine ⟨?_, ?_⟩
    · rcases h5 : env.targetCloseError with _ | e
      · rfl
      · rfl
    · intro h5
      rw [h5]

/-- A header-exists cell whose body fails its assertion (the reference
page has no header) while setup and both close calls succeed. -/
def assertFailEnv : HeaderExistsEnv :=
  { refNewPageError := none, targetNewPageError := none,
    refLoadError := none, targetLoadError := none,
    refHeaderCount := 0, targetHeaderCount := 1,
    refCloseError := none, targetCloseError := none }

/-- Witness for the corrected C8: a cell whose assertion fails still
closes both pages, and a fully succeeding screenshot cell closes both
pages. -/
theorem c8_handles_released_scoped_witness :
    (test_header_exists assertFailEnv).1 =
      TestOutcome.assertFailed "Reference site missing header" ∧
    (test_header_exists assertFailEnv).2.refClosed = true ∧
    (test_header_exists assertFailEnv).2.targetClosed = true ∧
    (test_page_screenshot_similarity idResample envBelow).2.2.refClosed
      = true ∧
    (test_page_screenshot_similarity idResample envBelow).2.2.targetClosed
      = true := by
  obtain ⟨hA, hB⟩ := c8_handles_released_scoped
  obtain ⟨h1, h2⟩ := hA assertFailEnv rfl rfl rfl
  obtain ⟨h3, h4⟩ := hB idResample envBelow rfl rfl rfl rfl
  exact ⟨rfl, h1, h2 rfl, h3, h4 rfl⟩

/-- C9: viewport gating is done by filtering the parametrization lists:
among the catalogue's viewports, exactly those of width at least 992 are
in the fixed-position check's parametrization (so it never runs at width
375), and exactly those of width at least 640 are in the two-column
check's parametrization; ungated viewports are simply absent (skipped),
not failed. -/
theorem c9_viewport_gating :
    (∀ kv, kv ∈ VIEWPORTS →
      (kv ∈ fixedPositionDesktopParams ↔ 992 ≤ kv.2.width)) ∧
    (∀ kv, kv ∈ fixedPositionDesktopParams → kv.2.width ≠ 375) ∧
    (∀ kv, kv ∈ VIEWPORTS →
      (kv ∈ twoColumnLayoutParams ↔ 640 ≤ kv.2.width)) := by
  refine ⟨?_, ?_, ?_⟩
  · intro kv hmem
    unfold fixedPositionDesktopParams
    rw [List.mem_filter]
    simp [hmem]
  · intro kv hmem
    unfold fixedPositionDesktopParams at hmem
    rw [List.mem_filter] at hmem
    have := of_decide_eq_true hmem.2
    omega
  · intro kv hmem
    unfold twoColumnLayoutParams
    rw [List.mem_filter]
    simp [hmem]

/-- Witness for C9: the mobile viewport (width 375) is in the catalogue
but not in the fixed-position parametrization; the desktop viewport is
in the two-column parametrization. -/
theorem c9_viewport_gating_witness :
    ("mobile", ({ width := 375, height := 667 } : Viewport)) ∈ VIEWPORTS ∧
    ("mobile", ({ width := 375, height := 667 } : Viewport)) ∉
      fixedPositionDesktopParams ∧
    ("desktop", ({ width := 1440, height := 900 } : Viewport)) ∈
      twoColumnLayoutParams := by
  refine ⟨by decide, ?_, ?_⟩
  · intro hmem
    have h := ((c9_viewport_gating).1 _ (by decide)).mp hmem
    exact absurd h (by decide)
  · exact ((c9_viewport_gating).2.2 _ (by decide)).mpr (by decide)

/-- C10: the division by `total_pixels = width × height` of the reference
is unguarded; for a reference with positive width and height the
comparison is total (returns a result), while a zero-area reference
reaches the division-by-zero branch (`ZeroDivisionError`, modelled as
`none`). -/
theorem c10_division_guard
    (resample : RasterImage → Nat → Nat → RasterImage)
    (ref tgt : RasterImage) :
    (0 < ref.width → 0 < ref.height →
      (compare_screenshots resample ref tgt).isSome = true) ∧
    (ref.width * ref.height = 0 →
      compare_screenshots resample ref tgt = none) := by
  constructor
  · intro hw hh
    unfold compare_screenshots
    rw [compareSameSize_pos ref _ (Nat.mul_ne_zero hw.ne' hh.ne')]
    rfl
  · intro h0
    unfold compare_screenshots
    simp [compareSameSize, h0]

/-- Witness for C10: a 1×1 reference returns a result; a 0×0 reference
hits the division-by-zero branch. -/
theorem c10_division_guard_witness :
    0 < oneBlack.width ∧ 0 < oneBlack.height ∧
    (compare_screenshots idResample oneBlack oneWhite).isSome = true ∧
    zeroImage.width * zeroImage.height = 0 ∧
    compare_screenshots idResample zeroImage zeroImage = none :=
  ⟨by decide, by decide,
    (c10_division_guard idResample oneBlack oneWhite).1 (by decide) (by decide),
    by decide,
    (c10_division_guard idResample zeroImage zeroImage).2 (by decide)⟩
